import Mathlib

/-
Verification of the transit-routing backend (route_planner.py,
dijkstra_router.py, transfer_analyzer.py) against its specification.

Modelling conventions (shallow embedding):
* Python floats and datetimes are modelled as rationals (ℚ); datetimes are
  epoch seconds, timedeltas are plain rational differences.  On every input
  relevant to the claims the float computations of the source coincide with
  exact rational arithmetic, so this is observationally faithful.
* Python `int(x)` (truncation toward zero) is `pyInt`.
* Optional / possibly-missing dict entries are `Option` fields; a Python
  truthiness test on a string is `pyTruthyStr` / `pyTruthyOpt`
  (None and the empty string are falsy).
* `await` calls on the MBTA client are modelled by pure oracle functions
  stored in a client structure; a call that raises is modelled by the
  oracle returning `none`.
* The haversine helper (float trigonometry) is modelled as an
  uninterpreted distance oracle `hav` carried by the graph value; the
  routing logic only ever compares and rescales its results.
-/

set_option maxHeartbeats 1000000

/-- Python `int(x)`: truncation toward zero on rationals.  `Int.tdiv` is
T-division, which truncates toward zero, and the denominator of a
normalised rational is positive. -/
def pyInt (q : ℚ) : ℤ :=
  q.num.tdiv (q.den : ℤ)

/-- Python truthiness of a string: the empty string is falsy. -/
def pyTruthyStr (s : String) : Bool :=
  !(s == "")

/-- Python truthiness of an optional string: `None` and `""` are falsy. -/
def pyTruthyOpt (o : Option String) : Bool :=
  match o with
  | none => false
  | some s => pyTruthyStr s

/-- Python `a or b` on optional strings: the first truthy value wins. -/
def pyOrStr (a b : Option String) : Option String :=
  if pyTruthyOpt a then a else b

/-- transfer_analyzer.TransferRating. -/
inductive TransferRating where
  | likely
  | risky
  | unlikely
deriving DecidableEq, Repr

/-- `TransferRating.value`: the wire string of a rating. -/
def TransferRating.value : TransferRating → String
  | .likely => "likely"
  | .risky => "risky"
  | .unlikely => "unlikely"

/-- transfer_analyzer.STATION_BUFFERS lookup with its default of 60
(the duplicated "place-north" key resolves to 180, as in the dict literal). -/
def STATION_BUFFERS_get (station_id : String) : ℕ :=
  if station_id = "place-pktrm" then 180
  else if station_id = "place-dwnxg" then 150
  else if station_id = "place-sstat" then 180
  else if station_id = "place-jfk" then 120
  else if station_id = "place-north" then 180
  else if station_id = "place-bbsta" then 120
  else if station_id = "place-rugg" then 90
  else if station_id = "place-haecl" then 120
  else if station_id = "place-state" then 120
  else if station_id = "place-gover" then 120
  else if station_id = "place-coecl" then 90
  else if station_id = "place-kencl" then 120
  else if station_id = "place-lech" then 120
  else if station_id = "place-aport" then 90
  else 60

/-- transfer_analyzer.LINE_TRANSFER_ADJUSTMENTS lookup with default 0. -/
def LINE_TRANSFER_ADJUSTMENTS_get (from_line to_line : String) : ℕ :=
  if from_line = "Red Line" ∧ to_line = "Green Line" then 30
  else if from_line = "Green Line" ∧ to_line = "Red Line" then 30
  else if from_line = "Orange Line" ∧ to_line = "Green Line" then 20
  else if from_line = "Green Line" ∧ to_line = "Orange Line" then 20
  else if from_line = "Red Line" ∧ to_line = "Commuter Rail" then 60
  else if from_line = "Commuter Rail" ∧ to_line = "Red Line" then 60
  else if from_line = "Orange Line" ∧ to_line = "Commuter Rail" then 60
  else if from_line = "Commuter Rail" ∧ to_line = "Orange Line" then 60
  else if from_line = "Blue Line" ∧ to_line = "Green Line" then 20
  else if from_line = "Green Line" ∧ to_line = "Blue Line" then 20
  else if from_line = "Blue Line" ∧ to_line = "Orange Line" then 20
  else if from_line = "Orange Line" ∧ to_line = "Blue Line" then 20
  else 0

/-- The combined buffer before speed adjustment: per-station base buffer
plus per-line-pair adjustment (consulted only when both lines are truthy),
transfer_analyzer lines 99-108. -/
def buffer_base_total (station_id : String) (from_line to_line : Option String) : ℕ :=
  STATION_BUFFERS_get station_id +
    (if pyTruthyOpt from_line ∧ pyTruthyOpt to_line then
      LINE_TRANSFER_ADJUSTMENTS_get (from_line.getD "") (to_line.getD "")
    else 0)

/-- transfer_analyzer.calculate_transfer_time, lines 77-128.
`from_line`/`to_line` default to None; the line adjustment is consulted only
when both are truthy.  WALKING_PORTION = 0.6, BASE_WALKING_SPEED = 5.0. -/
def calculate_transfer_time (station_id : String)
    (from_line to_line : Option String) (walking_speed_kmh : ℚ) : ℤ :=
  let base_buffer : ℕ := STATION_BUFFERS_get station_id
  let line_adjustment : ℕ :=
    if pyTruthyOpt from_line ∧ pyTruthyOpt to_line then
      LINE_TRANSFER_ADJUSTMENTS_get (from_line.getD "") (to_line.getD "")
    else 0
  let base_total : ℚ := (base_buffer + line_adjustment : ℕ)
  let speed_factor : ℚ := if 0 < walking_speed_kmh then 5 / walking_speed_kmh else 1
  let walking_time : ℚ := base_total * (6/10)
  let fixed_time : ℚ := base_total * (1 - 6/10)
  let adjusted_walking_time : ℚ := walking_time * speed_factor
  let total_buffer : ℤ := pyInt (fixed_time + adjusted_walking_time)
  max total_buffer 30

/-- transfer_analyzer.rate_transfer, lines 131-149. -/
def rate_transfer (slack_time_seconds : ℚ) : TransferRating :=
  if slack_time_seconds > 300 then .likely
  else if slack_time_seconds > 120 then .risky
  else .unlikely

/-- A graph edge, mirroring the duck-typed edge dicts of the snapshot.
Optional fields model dict keys that may be absent.  The keys
`departure_time` / `arrival_time` / `status` are attached to path copies by
the time-aware search (ISO-format round-tripping is the identity here). -/
structure Edge where
  from_ : String
  to_ : String
  type_ : Option String := none
  line : Option String := none
  route_id : Option String := none
  time_seconds : Option ℚ := none
  distance_meters : Option ℚ := none
  route_type : Option ℕ := none
  departure_time : Option ℚ := none
  arrival_time : Option ℚ := none
  status : Option String := none
deriving DecidableEq, Repr

/-- A station node: its display name and the set of line names it serves. -/
structure StationNode where
  name : Option String := none
  lines : List String := []
deriving DecidableEq, Repr

/-- route_planner.TransitGraph after loading: node map and edge list.
The adjacency map is derived from the edge list (see `adjacency`).
`hav` is the `_haversine_distance` member, modelled as an uninterpreted
distance oracle (the source computes it with float trigonometry from the
node coordinates). -/
structure TransitGraph where
  nodes : List (String × StationNode)
  edges : List Edge
  hav : String → String → ℚ

/-- Dict lookup in `self.nodes`. -/
def TransitGraph.nodesGet (g : TransitGraph) (s : String) : Option StationNode :=
  (g.nodes.find? (fun p => p.1 = s)).map (·.2)

/-- `s in self.nodes`. -/
def TransitGraph.hasNode (g : TransitGraph) (s : String) : Bool :=
  (g.nodes.find? (fun p => p.1 = s)).isSome

/-- `self.adjacency.get(s, [])`: the construction loop appends the edges in
list order, so adjacency is the in-order filter of the edge list. -/
def TransitGraph.adjacency (g : TransitGraph) (s : String) : List Edge :=
  g.edges.filter (fun e => e.from_ = s)

/-- route_planner.RouteSegment. -/
structure RouteSegment where
  from_station : String
  to_station : String
  type_ : String
  line : Option String := none
  route_id : Option String := none
  time_seconds : ℚ := 0
  distance_meters : ℚ := 0
  departure_time : Option ℚ := none
  arrival_time : Option ℚ := none
  status : Option String := none
  transfer_rating : Option String := none
  slack_time_seconds : Option ℚ := none
  buffer_seconds : Option ℤ := none
deriving DecidableEq, Repr

/-- route_planner.Route. -/
structure Route where
  segments : List RouteSegment
  total_time_seconds : ℚ
  total_distance_meters : ℚ
  num_transfers : ℕ
  departure_time : Option ℚ := none
  arrival_time : Option ℚ := none
deriving DecidableEq, Repr

/-- Accumulator state of the `_build_route` loop. -/
structure BuildState where
  segments : List RouteSegment := []
  total_time : ℚ := 0
  total_distance : ℚ := 0
  num_transfers : ℕ := 0
  current_line : Option String := none
  departure_time : Option ℚ := none
  arrival_time : Option ℚ := none
deriving DecidableEq, Repr

/-- One iteration of the `_build_route` loop body (lines 63-103).
`edge["type"]` is a mandatory key in the source (a missing key would raise);
it is read with default "" here. -/
def buildRouteStep (st : BuildState) (edge : Edge) : BuildState :=
  let edge_time : ℚ := edge.time_seconds.getD 0
  let seg_departure : Option ℚ := edge.departure_time
  let seg_arrival : Option ℚ := edge.arrival_time
  let departure_time :=
    if seg_departure.isSome ∧ st.departure_time.isNone then seg_departure
    else st.departure_time
  let arrival_time := if seg_arrival.isSome then seg_arrival else st.arrival_time
  let segment : RouteSegment :=
    { from_station := edge.from_
      to_station := edge.to_
      type_ := edge.type_.getD ""
      line := edge.line
      route_id := edge.route_id
      time_seconds := edge_time
      distance_meters := edge.distance_meters.getD 0
      departure_time := seg_departure
      arrival_time := seg_arrival
      status := edge.status }
  let num_transfers :=
    if edge.type_ = some "train" ∧ pyTruthyOpt st.current_line ∧ edge.line ≠ st.current_line
    then st.num_transfers + 1 else st.num_transfers
  let current_line := if edge.type_ = some "train" then edge.line else st.current_line
  { segments := st.segments ++ [segment]
    total_time := st.total_time + edge_time
    total_distance := st.total_distance + edge.distance_meters.getD 0
    num_transfers := num_transfers
    current_line := current_line
    departure_time := departure_time
    arrival_time := arrival_time }

/-- route_planner.TransitGraph._build_route, lines 53-112: fold the loop body
over the path and package the accumulator into a Route. -/
def _build_route (path : List Edge) : Route :=
  let st := path.foldl buildRouteStep {}
  { segments := st.segments
    total_time_seconds := st.total_time
    total_distance_meters := st.total_distance
    num_transfers := st.num_transfers
    departure_time := st.departure_time
    arrival_time := st.arrival_time }

/-- route_planner.find_shortest_path, line 136: the fixed line-change
penalty constant, zero when the caller disables transfer minimisation. -/
def TRANSFER_PENALTY (prefer_fewer_transfers : Bool) : ℚ :=
  if prefer_fewer_transfers then 180 else 0

/-- route_planner.find_shortest_path, lines 167-173: the per-edge transfer
penalty added to the numeric edge weight. -/
def rp_transfer_penalty (prefer_fewer_transfers : Bool)
    (current_line : Option String) (edge : Edge) : ℚ :=
  if pyTruthyOpt current_line ∧ edge.type_ = some "train" ∧ edge.line ≠ current_line
  then TRANSFER_PENALTY prefer_fewer_transfers else 0

/-- route_planner.find_shortest_path, line 175: the relaxed tentative time
for a neighbor. -/
def rp_total_time (prefer_fewer_transfers : Bool) (current_line : Option String)
    (current_time : ℚ) (edge : Edge) : ℚ :=
  current_time + edge.time_seconds.getD 0 + rp_transfer_penalty prefer_fewer_transfers current_line edge

/-- dijkstra_router.find_shortest_path, lines 112-115: the line used to
reach the current station, read off the last path edge. -/
def dj_current_line (path : List Edge) : Option String :=
  match path.getLast? with
  | none => none
  | some last_edge => pyOrStr last_edge.line last_edge.route_id

/-- dijkstra_router.find_shortest_path, line 141: the type of the last path
edge, defaulting to "train". -/
def dj_last_edge_type (path : List Edge) : String :=
  match path.getLast? with
  | some last => last.type_.getD "train"
  | none => "train"

/-- dijkstra_router.find_shortest_path, lines 135-145: the tie-break penalty
of 1 second added when consecutive train edges change line. -/
def dj_line_change_penalty (path : List Edge) (edge : Edge) : ℚ :=
  let current_line := dj_current_line path
  let edge_line := pyOrStr edge.line edge.route_id
  if pyTruthyOpt current_line ∧ pyTruthyOpt edge_line ∧ current_line ≠ edge_line then
    let edge_type := edge.type_.getD "train"
    if edge_type = "train" ∧ dj_last_edge_type path = "train" then 1 else 0
  else 0

/-- dijkstra_router.find_shortest_path, lines 126-145: the relaxed tentative
time for a neighbor (`new_time`). -/
def dj_new_time (total_time : ℚ) (path : List Edge) (edge : Edge) : ℚ :=
  total_time + edge.time_seconds.getD 0 + dj_line_change_penalty path edge

/-- All edge targets of the graph: the universe the same-line BFS queue
draws its pushed elements from (used only for the termination measure). -/
def bfsUniverse (g : TransitGraph) : List String :=
  g.edges.map (fun e => e.to_)

/-- Predicate for the termination measure: the station is not an edge
target of the graph. -/
def notInUniverse (g : TransitGraph) (x : String) : Bool :=
  decide (x ∉ bfsUniverse g)

/-- Termination measure for the same-line BFS: unvisited universe size and
queue contents, weighted so that every loop iteration decreases it. -/
def bfsMeasure (g : TransitGraph) (queue visited : List String) : ℕ :=
  ((bfsUniverse g).toFinset \ visited.toFinset).card * (g.edges.length + 1)
  + queue.countP (notInUniverse g) * (g.edges.length + 1)
  + queue.length

/-- The BFS loop of route_planner._is_destination_reachable_on_line,
lines 220-239: pop the queue front, succeed on the destination, skip
visited stations, otherwise mark visited and push the targets of unvisited
same-line train edges. -/
def sameLineBFS (g : TransitGraph) (current_line destination : String) :
    List String → List String → Bool
  | [], _ => false
  | station :: rest, visited =>
    if station = destination then true
    else if station ∈ visited then
      sameLineBFS g current_line destination rest visited
    else
      sameLineBFS g current_line destination
        (rest ++ (g.adjacency station).filterMap (fun e =>
          if e.type_ = some "train" ∧ e.line = some current_line ∧ ¬ (e.to_ ∈ station :: visited)
          then some e.to_ else none))
        (station :: visited)
termination_by queue visited => bfsMeasure g queue visited
decreasing_by
· -- popped an already-visited station: the first two summands do not grow
  -- and the queue shrinks
  unfold bfsMeasure
  have hB : rest.countP (notInUniverse g) ≤ (station :: rest).countP (notInUniverse g) := by
    rw [List.countP_cons]
    omega
  have hB2 : rest.countP (notInUniverse g) * (g.edges.length + 1)
      ≤ (station :: rest).countP (notInUniverse g) * (g.edges.length + 1) :=
    Nat.mul_le_mul_right _ hB
  simp only [List.length_cons]
  omega
· -- popped a fresh station
  rename_i hdest hvis
  have key : ∀ q2 : List String, (∀ x ∈ q2, x ∈ bfsUniverse g) →
      q2.length ≤ g.edges.length →
      bfsMeasure g (rest ++ q2) (station :: visited)
        < bfsMeasure g (station :: rest) visited := by
    intro q2 hq2 hql
    unfold bfsMeasure
    have hBn : q2.countP (notInUniverse g) = 0 := by
      rw [List.countP_eq_zero]
      intro a ha
      simp only [notInUniverse, decide_eq_true_eq, Decidable.not_not]
      exact hq2 a ha
    have hB : (rest ++ q2).countP (notInUniverse g) = rest.countP (notInUniverse g) := by
      simp [List.countP_append, hBn]
    have hBc : rest.countP (notInUniverse g) ≤ (station :: rest).countP (notInUniverse g) := by
      rw [List.countP_cons]
      omega
    have hBc2 : rest.countP (notInUniverse g) * (g.edges.length + 1)
        ≤ (station :: rest).countP (notInUniverse g) * (g.edges.length + 1) :=
      Nat.mul_le_mul_right _ hBc
    have hlens : (rest ++ q2).length = rest.length + q2.length := List.length_append _ _
    by_cases hmem : station ∈ bfsUniverse g
    · -- the fresh station is an edge target: the unvisited-universe count drops
      have hA : ((bfsUniverse g).toFinset \ (station :: visited).toFinset).card
          < ((bfsUniverse g).toFinset \ visited.toFinset).card := by
        have hsub : (bfsUniverse g).toFinset \ (station :: visited).toFinset
            = ((bfsUniverse g).toFinset \ visited.toFinset).erase station := by
          ext x
          simp only [Finset.mem_sdiff, List.toFinset_cons, Finset.mem_insert,
            Finset.mem_erase, List.mem_toFinset]
          tauto
        rw [hsub]
        refine Finset.card_erase_lt_of_mem ?_
        simp only [Finset.mem_sdiff, List.mem_toFinset]
        exact ⟨hmem, hvis⟩
      have hA1 : ((bfsUniverse g).toFinset \ (station :: visited).toFinset).card + 1
          ≤ ((bfsUniverse g).toFinset \ visited.toFinset).card := hA
      have hA2 : (((bfsUniverse g).toFinset \ (station :: visited).toFinset).card + 1)
          * (g.edges.length + 1)
          ≤ ((bfsUniverse g).toFinset \ visited.toFinset).card * (g.edges.length + 1) :=
        Nat.mul_le_mul_right _ hA1
      have hexp : (((bfsUniverse g).toFinset \ (station :: visited).toFinset).card + 1)
          * (g.edges.length + 1)
          = ((bfsUniverse g).toFinset \ (station :: visited).toFinset).card
            * (g.edges.length + 1) + (g.edges.length + 1) := by
        ring
      rw [hexp] at hA2
      rw [hB, hlens]
      simp only [List.length_cons]
      omega
    · -- the fresh station is not an edge target: it was counted by the
      -- second summand, which drops
      have hA : ((bfsUniverse g).toFinset \ (station :: visited).toFinset).card
          = ((bfsUniverse g).toFinset \ visited.toFinset).card := by
        congr 1
        ext x
        simp only [Finset.mem_sdiff, List.toFinset_cons, Finset.mem_insert,
          List.mem_toFinset]
        constructor
        · rintro ⟨hx, hx2⟩
          exact ⟨hx, fun hv => hx2 (Or.inr hv)⟩
        · rintro ⟨hx, hx2⟩
          refine ⟨hx, ?_⟩
          rintro (rfl | hv)
          · exact hmem hx
          · exact hx2 hv
      have hBplus : (station :: rest).countP (notInUniverse g)
          = rest.countP (notInUniverse g) + 1 := by
        rw [List.countP_cons]
        simp [notInUniverse, hmem]
      have hBp2 : (station :: rest).countP (notInUniverse g) * (g.edges.length + 1)
          = rest.countP (notInUniverse g) * (g.edges.length + 1) + (g.edges.length + 1) := by
        rw [hBplus]
        ring
      rw [hB, hlens, hA]
      simp only [List.length_cons]
      omega
  apply key
  · intro x hx
    rw [List.mem_filterMap] at hx
    obtain ⟨e, he, he2⟩ := hx
    split at he2
    · cases he2
      exact List.mem_map.mpr ⟨e, List.mem_of_mem_filter he, rfl⟩
    · cases he2
  · calc (List.filterMap _ (g.adjacency station)).length
        ≤ (g.adjacency station).length := List.length_filterMap_le _ _
    _ ≤ g.edges.length := List.length_filter_le _ _

/-- route_planner._is_destination_reachable_on_line, lines 215-239. -/
def is_destination_reachable_on_line (g : TransitGraph)
    (current_station destination : String) (current_line : Option String) : Bool :=
  if ¬ pyTruthyOpt current_line then false
  else sameLineBFS g (current_line.getD "") destination [current_station] []

/-- A label `(transfers, arrival_time)` attached to a station. -/
abbrev SearchLabel := ℕ × ℚ

/-- `best_labels`: station id → retained label list (a Python dict). -/
abbrev LabelMap := List (String × List SearchLabel)

/-- `best_labels.get(s, [])`. -/
def labelsGet (m : LabelMap) (s : String) : List SearchLabel :=
  ((m.find? (fun p => p.1 = s)).map (fun p => p.2)).getD []

/-- `best_labels[s] = v`. -/
def labelsSet (m : LabelMap) (s : String) (v : List SearchLabel) : LabelMap :=
  if (m.find? (fun p => p.1 = s)).isSome then
    m.map (fun p => if p.1 = s then (s, v) else p)
  else m ++ [(s, v)]

/-- An entry of the time-aware priority queue (route_planner line 323):
`(sort_key, current_arrival, current_station, path, num_transfers,
current_line)`. -/
structure PQItem where
  sort_key : ℚ × ℚ
  current_arrival : ℚ
  current_station : String
  path : List Edge
  num_transfers : ℕ
  current_line : Option String
deriving DecidableEq, Repr

/-- Python tuple comparison on queue entries, as used by heapq: strict
lexicographic order on the leading comparable components.  (Comparing two
entries that agree on all of these would make Python compare the edge-dict
lists and raise; the spec treats tie order as accepted nondeterminism, and
the comparison is cut off here.) -/
def itemLt (a b : PQItem) : Bool :=
  if a.sort_key.1 ≠ b.sort_key.1 then decide (a.sort_key.1 < b.sort_key.1)
  else if a.sort_key.2 ≠ b.sort_key.2 then decide (a.sort_key.2 < b.sort_key.2)
  else if a.current_arrival ≠ b.current_arrival then decide (a.current_arrival < b.current_arrival)
  else if a.current_station ≠ b.current_station then decide (a.current_station < b.current_station)
  else false

/-- `heapq.heappop`: remove a minimal entry (the earliest-inserted one among
equals), returning it and the remaining entries in insertion order. -/
def popMin1 : PQItem → List PQItem → PQItem × List PQItem
  | x, [] => (x, [])
  | x, y :: ys =>
    if itemLt y x then
      let mr := popMin1 y ys
      (mr.1, x :: mr.2)
    else
      let mr := popMin1 x ys
      (mr.1, y :: mr.2)

/-- The pop-time dominance check of route_planner lines 352-362: the popped
state is dominated when a retained label at its station is weakly better in
both coordinates and strictly better in one. -/
def isDominatedOnPop (best_labels : LabelMap) (item : PQItem) : Bool :=
  (labelsGet best_labels item.current_station).any (fun l =>
    l.1 ≤ item.num_transfers ∧ l.2 ≤ item.current_arrival ∧
    (l.1 < item.num_transfers ∨ l.2 < item.current_arrival))

/-- The per-station label update of route_planner lines 542-553: reject a
candidate weakly dominated by a retained label, otherwise drop the labels it
weakly dominates and append it. -/
def updateLabels (labels : List SearchLabel) (new_transfers : ℕ) (next_arrival : ℚ) :
    List SearchLabel :=
  if labels.any (fun l => l.1 ≤ new_transfers ∧ l.2 ≤ next_arrival) then labels
  else labels.filter (fun l => ¬ (new_transfers ≤ l.1 ∧ next_arrival ≤ l.2))
    ++ [(new_transfers, next_arrival)]

/-- One real-time departure row as returned by
`mbta_client.get_next_departures` (route_planner lines 506-534). -/
structure RPDeparture where
  departure_time : ℚ
  status : Option String := none
deriving DecidableEq, Repr

/-- The MBTA client as seen by the time-aware search: a pure oracle from
`(stop_id, route_id)` to the departure rows (limit 3, predictions enabled,
folded into the oracle).  `none` models a raised exception. -/
structure RPClient where
  get_next_departures : String → String → Option (List RPDeparture)

/-- The "walk lands on a line the destination also serves" test, computed
identically at route_planner lines 403-415, 441-446 and 464-470.  Dict
truthiness of the node values is `Option.isSome` (graph node dicts are
nonempty). -/
def walks_to_destination_line (g : TransitGraph) (next_station : String)
    (end_node : Option StationNode) : Bool :=
  match g.nodesGet next_station, end_node with
  | some next_node, some en => next_node.lines.any (fun l => l ∈ en.lines)
  | _, _ => false

/-- The category-default segment time of route_planner lines 493-496 and
525-528: `time_seconds` if present and nonzero, else 180 s for route type 2,
120 s for type 1, 150 s otherwise. -/
def pySegmentTime (edge : Edge) : ℚ :=
  let fallback : ℚ :=
    let rt := edge.route_type.getD 1
    if rt = 2 then 180 else if rt = 1 then 120 else 150
  match edge.time_seconds with
  | some t => if t = 0 then fallback else t
  | none => fallback

/-- The guard rules and edge-cost calculation of the time-aware expansion
loop body (route_planner lines 383-538).  Returns
`(next_arrival, new_transfers, new_line, metadata departure, metadata
status)`, or `none` when the source executes `continue`. -/
def edgeTransition (g : TransitGraph) (client : RPClient) (end_station_id : String)
    (max_transfers : ℕ) (item : PQItem) (serves_trains : Bool)
    (reach_same_line : List String) (edge : Edge) :
    Option (ℚ × ℕ × Option String × Option ℚ × Option String) :=
  let next_station := edge.to_
  let edge_type := edge.type_.getD "train"
  let end_node := g.nodesGet end_station_id
  -- rule 1: never walk when the destination is reachable on the current
  -- line, and never walk to a station the current line already reaches
  if pyTruthyOpt item.current_line ∧ edge_type = "walk" ∧
      is_destination_reachable_on_line g item.current_station end_station_id item.current_line
  then none
  else if pyTruthyOpt item.current_line ∧ edge_type = "walk" ∧
      next_station ∈ reach_same_line
  then none
  -- rule 2: walk-length caps, relaxed for walks onto the destination line
  else if edge_type = "walk" ∧ item.current_line = none ∧
      edge.time_seconds.getD 0 >
        (if walks_to_destination_line g next_station end_node then (480 : ℚ) else 300)
  then none
  else if edge_type = "walk" ∧ item.current_line ≠ none ∧
      walks_to_destination_line g next_station end_node ∧
      edge.time_seconds.getD 0 > 420
  then none
  else if edge_type = "walk" ∧ item.current_line ≠ none ∧
      ¬ walks_to_destination_line g next_station end_node ∧
      (serves_trains ∧ (edge.time_seconds.getD 0 > 240 ∨ edge.distance_meters.getD 0 > 300))
  then none
  -- rule 3: discourage walks that move away from the destination
  else if edge_type = "walk" ∧ ¬ walks_to_destination_line g next_station end_node ∧
      g.hav next_station end_station_id > g.hav item.current_station end_station_id + 200
  then none
  -- edge cost calculation
  else if edge_type = "walk" then
    let walk_time := edge.time_seconds.getD 0
    if walk_time = 0 then none
    else some (item.current_arrival + walk_time, item.num_transfers, none, none, none)
  else if edge_type = "train" then
    if ¬ pyTruthyOpt edge.route_id then none
    else
      let edge_line := edge.line
      let is_transfer := item.current_line ≠ none ∧ edge_line ≠ item.current_line
      let new_transfers := if is_transfer then item.num_transfers + 1 else item.num_transfers
      if is_transfer ∧ new_transfers > max_transfers then none
      else if pyTruthyOpt item.current_line ∧ edge_line = item.current_line then
        -- same-line zero-wait fast path
        some (item.current_arrival + pySegmentTime edge, new_transfers, edge_line,
          none, some "On Train")
      else
        match client.get_next_departures item.current_station (edge.route_id.getD "") with
        | none => none
        | some deps =>
          let valid_deps := deps.filter (fun d => d.departure_time ≥ item.current_arrival)
          let valid_deps :=
            if is_transfer then
              valid_deps.filter (fun d => d.departure_time ≥ item.current_arrival + 120)
            else valid_deps
          match valid_deps with
          | [] => none
          | departure :: _ =>
            some (departure.departure_time + pySegmentTime edge, new_transfers, edge_line,
              some departure.departure_time, some (departure.status.getD "Scheduled"))
  else
    -- unknown edge type: the source falls through to the label update with
    -- the defaults of lines 452-455 (zero-cost move keeping line/transfers)
    some (item.current_arrival, item.num_transfers, item.current_line, none, none)

/-- The Pareto-set / priority-queue update of route_planner lines 540-574:
reject weakly dominated candidates, otherwise retain the new label, drop the
labels it weakly dominates, and push the extended path. -/
def applyLabelUpdate (g : TransitGraph) (end_station_id : String) (prefer : Bool)
    (item : PQItem) (edge : Edge) (next_arrival : ℚ) (new_transfers : ℕ)
    (new_line : Option String) (meta_departure : Option ℚ) (meta_status : Option String)
    (st : LabelMap × List PQItem) : LabelMap × List PQItem :=
  let next_station := edge.to_
  let labels := labelsGet st.1 next_station
  if labels.any (fun l => l.1 ≤ new_transfers ∧ l.2 ≤ next_arrival) then st
  else
    let new_labels := labels.filter (fun l => ¬ (new_transfers ≤ l.1 ∧ next_arrival ≤ l.2))
      ++ [(new_transfers, next_arrival)]
    let new_edge := { edge with
      arrival_time := some next_arrival
      departure_time := some (meta_departure.getD item.current_arrival)
      status := match meta_status with | some s => some s | none => edge.status }
    let heuristic := g.hav next_station end_station_id / 20
    let estimated_total_time := next_arrival + heuristic
    let sort_key : ℚ × ℚ :=
      if prefer then ((new_transfers : ℚ), estimated_total_time)
      else (estimated_total_time, (new_transfers : ℚ))
    (labelsSet st.1 next_station new_labels,
     st.2 ++ [{ sort_key := sort_key
                current_arrival := next_arrival
                current_station := next_station
                path := item.path ++ [new_edge]
                num_transfers := new_transfers
                current_line := new_line }])

/-- One edge of the expansion loop: transition guard/cost, then label and
queue update. -/
def processEdge (g : TransitGraph) (client : RPClient) (end_station_id : String)
    (prefer : Bool) (max_transfers : ℕ) (item : PQItem) (serves_trains : Bool)
    (reach_same_line : List String) (st : LabelMap × List PQItem) (edge : Edge) :
    LabelMap × List PQItem :=
  match edgeTransition g client end_station_id max_transfers item serves_trains
      reach_same_line edge with
  | none => st
  | some (next_arrival, new_transfers, new_line, meta_departure, meta_status) =>
    applyLabelUpdate g end_station_id prefer item edge next_arrival new_transfers
      new_line meta_departure meta_status st

/-- The whole neighbor-expansion pass for one popped state (route_planner
lines 370-574): compute `serves_trains` and the same-line-reachable set,
then fold the per-edge step over the adjacency list, threading the label map
and collecting the pushed queue entries. -/
def expandEdges (g : TransitGraph) (client : RPClient) (end_station_id : String)
    (prefer : Bool) (max_transfers : ℕ) (item : PQItem) (best_labels : LabelMap) :
    LabelMap × List PQItem :=
  let edges := g.adjacency item.current_station
  let serves_trains := edges.any (fun e => e.type_ = some "train")
  let reach_same_line :=
    if pyTruthyOpt item.current_line then
      edges.filterMap (fun e =>
        if e.type_ = some "train" ∧ e.line = item.current_line then some e.to_ else none)
    else []
  edges.foldl
    (processEdge g client end_station_id prefer max_transfers item serves_trains reach_same_line)
    (best_labels, [])

/-- route_planner line 335. -/
def MAX_EXPLORATIONS : ℕ := 2000

/-- Result of the main search loop, instrumented with the final value of the
`paths_explored` counter and whether the loop stopped because the counter
reached the exploration cap. -/
structure SearchRunResult where
  route : Option Route
  explored : ℕ
  capped : Bool
deriving Repr

/-- The main while loop of route_planner.find_time_aware_path, lines
337-578: pop a minimal entry, return on the destination, otherwise compute
the (unused) pop-time dominance flag, expand the neighbors and continue.
The source condition is `pq and paths_explored < MAX_EXPLORATIONS`; here
`fuel` carries `MAX_EXPLORATIONS - paths_explored` structurally (the only
caller starts with `fuel = MAX_EXPLORATIONS`, `paths_explored = 0`, and
every iteration moves one unit from `fuel` to `paths_explored`), so
`fuel = 0` with a nonempty queue is exactly the cap being reached. -/
def searchLoop (g : TransitGraph) (client : RPClient) (end_station_id : String)
    (prefer : Bool) (max_transfers : ℕ) :
    ℕ → List PQItem → LabelMap → ℕ → SearchRunResult
  | _, [], _, paths_explored => ⟨none, paths_explored, false⟩
  | 0, _ :: _, _, paths_explored => ⟨none, paths_explored, true⟩
  | fuel + 1, x :: xs, best_labels, paths_explored =>
    let popped := popMin1 x xs
    let item := popped.1
    if item.current_station = end_station_id then
      ⟨some (_build_route item.path), paths_explored + 1, false⟩
    else
      -- the pop-time dominance flag of lines 356-362 is computed and then
      -- never consulted, exactly as in the source
      let _is_dominated := isDominatedOnPop best_labels item
      let step := expandEdges g client end_station_id prefer max_transfers item best_labels
      searchLoop g client end_station_id prefer max_transfers fuel
        (popped.2 ++ step.2) step.1 (paths_explored + 1)

/-- The search part of find_time_aware_path (lines 323-337 and 576-578):
initial queue entry, initial label map, then the main loop. -/
def timeAwareSearch (g : TransitGraph) (client : RPClient)
    (start_station_id end_station_id : String) (departure_time : ℚ)
    (prefer_fewer_transfers : Bool) (max_transfers : ℕ) : Option Route :=
  let initial_heuristic := g.hav start_station_id end_station_id / 20
  let initial_sort : ℚ × ℚ :=
    if prefer_fewer_transfers then (0, departure_time + initial_heuristic)
    else (departure_time + initial_heuristic, 0)
  let pq : List PQItem := [{ sort_key := initial_sort
                             current_arrival := departure_time
                             current_station := start_station_id
                             path := []
                             num_transfers := 0
                             current_line := none }]
  let best_labels : LabelMap := [(start_station_id, [(0, departure_time)])]
  (searchLoop g client end_station_id prefer_fewer_transfers max_transfers
    MAX_EXPLORATIONS pq best_labels 0).route

/-- route_planner.find_time_aware_path, lines 261-578.  The required
`mbta_client` is a parameter; `departure_time` is the concrete request time
(the `datetime.now` default is the ambient clock).  OPTIMIZATION 2 of lines
313-321 only prints debug output and is omitted as a no-op. -/
def find_time_aware_path (g : TransitGraph) (client : RPClient)
    (start_station_id end_station_id : String) (departure_time : ℚ)
    (prefer_fewer_transfers : Bool) (max_transfers : ℕ) : Option Route :=
  if ¬ (g.hasNode start_station_id ∧ g.hasNode end_station_id) then none
  else
    match (g.adjacency start_station_id).find?
        (fun e => e.type_ = some "walk" ∧ e.to_ = end_station_id) with
    | some direct_walk =>
      let walk_time := direct_walk.time_seconds.getD 0
      if walk_time < 600 then
        some { segments := [{ from_station := start_station_id
                              to_station := end_station_id
                              type_ := "walk"
                              line := none
                              route_id := none
                              time_seconds := walk_time
                              distance_meters := direct_walk.distance_meters.getD 0
                              departure_time := some departure_time
                              arrival_time := some (departure_time + walk_time)
                              status := some "Walking" }]
               total_time_seconds := walk_time
               total_distance_meters := direct_walk.distance_meters.getD 0
               num_transfers := 0
               departure_time := some departure_time
               arrival_time := some (departure_time + walk_time) }
      else
        timeAwareSearch g client start_station_id end_station_id departure_time
          prefer_fewer_transfers max_transfers
    | none =>
      timeAwareSearch g client start_station_id end_station_id departure_time
        prefer_fewer_transfers max_transfers

/-- One departure row returned by `get_next_departures` as consumed by the
enrichment pass (dijkstra_router lines 279-291). -/
structure Departure where
  departure_time : ℚ
  status : Option String := none
  trip_id : Option String := none
deriving DecidableEq, Repr

/-- One prediction row returned by `get_predictions`; only the
`attributes.arrival_time` entry is consumed (dijkstra_router lines 304-321),
with ISO-string parsing the identity here. -/
structure Prediction where
  arrival_time : Option ℚ := none
deriving DecidableEq, Repr

/-- The MBTA client as seen by the enrichment pass: pure oracles, with
`none` modelling a raised exception.  `get_next_departures` takes
`(stop_id, route_id)` (the route id may be None), `get_predictions` takes
`(stop_id, trip_id)`; the `limit` and `use_predictions` arguments are folded
into the oracles. -/
structure MbtaClient where
  get_next_departures : String → Option String → Option (List Departure)
  get_predictions : String → String → Option (List Prediction)

/-- dijkstra_router lines 250-259: Green Line branches count as one family;
otherwise the lines must match exactly; None never matches. -/
def is_same_line_family (line1 line2 : Option String) : Bool :=
  match line1, line2 with
  | some l1, some l2 =>
    let green_branches := ["B", "C", "D", "E", "Green-B", "Green-C", "Green-D", "Green-E"]
    if l1 ∈ green_branches ∧ l2 ∈ green_branches then true
    else l1 = l2
  | _, _ => false

/-- Accumulator state of the enrich_with_realtime loop (lines 195-199). -/
structure EnrichState where
  current_time : ℚ
  enriched_segments : List RouteSegment := []
  total_distance : ℚ := 0
  num_transfers : ℕ := 0
  current_line : Option String := none
deriving DecidableEq, Repr

/-- The destination-arrival resolution of enrich_with_realtime, lines
297-335: with a truthy trip id and destination stop, look up the prediction
for the same trip at the destination and accept its arrival only when it is
strictly after the departure; `none` on a raised inner exception, missing
prediction, or unusable arrival.  (The `mbta_client` conjunct of the
source condition is always true here: the caller is in the branch where the
client exists.) -/
def resolveDestArrival (client : MbtaClient) (to_station : String)
    (next_train : Departure) (dep_time : ℚ) : Option ℚ :=
  if pyTruthyOpt next_train.trip_id ∧ pyTruthyStr to_station then
    match client.get_predictions to_station (next_train.trip_id.getD "") with
    | none => none
    | some [] => none
    | some (dest_pred :: _) =>
      match dest_pred.arrival_time with
      | none => none
      | some a => if a > dep_time then some a else none
  else none

/-- The train-segment branch of enrich_with_realtime (lines 242-437),
starting after the transfer buffer has been added to the clock. -/
def enrichTrainSegment (mbta_client : Option MbtaClient) (edge : Edge)
    (is_transfer : Bool) (transfer_buffer_seconds : ℤ) (current_time : ℚ) :
    RouteSegment :=
  let from_station := edge.from_
  let to_station := edge.to_
  let route_id := edge.route_id
  let line_name := edge.line
  let static_travel_time := edge.time_seconds.getD 120
  let fallbackSegment : String → RouteSegment := fun st =>
    { from_station := from_station
      to_station := to_station
      type_ := "train"
      line := line_name
      route_id := route_id
      time_seconds := static_travel_time
      distance_meters := edge.distance_meters.getD 0
      departure_time := some current_time
      arrival_time := some (current_time + static_travel_time)
      status := some st }
  match mbta_client with
  | none =>
    -- no MBTA client: static times, status "Scheduled" (lines 393-411)
    fallbackSegment "Scheduled"
  | some client =>
    match client.get_next_departures from_station route_id with
    | none =>
      -- the lookup raised: static times, status "Estimated" (lines 413-434)
      fallbackSegment "Estimated"
    | some departures =>
      let valid_departures := departures.filter (fun d => d.departure_time ≥ current_time)
      match valid_departures with
      | [] =>
        -- no upcoming trains: static times, status "Estimated" (lines 371-392)
        fallbackSegment "Estimated"
      | next_train :: _ =>
        let dep_time := next_train.departure_time
        let wait_time := dep_time - current_time
        -- resolve the actual arrival at the destination stop (lines 297-335)
        let resolved : Option ℚ := resolveDestArrival client to_station next_train dep_time
        let arr_time := match resolved with
          | some a => a
          | none => dep_time + static_travel_time
        let actual_travel_time := match resolved with
          | some a => a - dep_time
          | none => static_travel_time
        let slack_time : Option ℚ :=
          if is_transfer ∧ transfer_buffer_seconds > 0 then
            some (wait_time - (transfer_buffer_seconds : ℚ))
          else none
        let transfer_rating : Option String :=
          match slack_time with
          | some s => some (rate_transfer s).value
          | none => none
        { from_station := from_station
          to_station := to_station
          type_ := "train"
          line := line_name
          route_id := route_id
          time_seconds := actual_travel_time
          distance_meters := edge.distance_meters.getD 0
          departure_time := some dep_time
          arrival_time := some arr_time
          status := some (next_train.status.getD "Scheduled")
          transfer_rating := transfer_rating
          slack_time_seconds := slack_time
          buffer_seconds := if is_transfer then some transfer_buffer_seconds else none }

/-- One iteration of the enrich_with_realtime loop (lines 201-443). -/
def enrichStep (mbta_client : Option MbtaClient) (walking_speed_kmh : ℚ)
    (st : EnrichState) (edge : Edge) : EnrichState :=
  let edge_type := edge.type_.getD "train"
  if edge_type = "walk" then
    let walk_distance := edge.distance_meters.getD 0
    let speed_ms := walking_speed_kmh * 1000 / 3600
    let walk_time := if speed_ms > 0 then walk_distance / speed_ms else edge.time_seconds.getD 0
    let arrival_time := st.current_time + walk_time
    let segment : RouteSegment :=
      { from_station := edge.from_
        to_station := edge.to_
        type_ := "walk"
        line := none
        route_id := none
        time_seconds := walk_time
        distance_meters := walk_distance
        departure_time := some st.current_time
        arrival_time := some arrival_time
        status := some "Walking" }
    { current_time := arrival_time
      enriched_segments := st.enriched_segments ++ [segment]
      total_distance := st.total_distance + walk_distance
      num_transfers := st.num_transfers
      current_line := none }
  else if edge_type = "train" then
    let line_name := edge.line
    let is_transfer := st.current_line ≠ none ∧ ¬ is_same_line_family line_name st.current_line
    let transfer_buffer_seconds : ℤ :=
      if is_transfer then
        calculate_transfer_time edge.from_ st.current_line line_name walking_speed_kmh
      else 0
    let num_transfers := if is_transfer then st.num_transfers + 1 else st.num_transfers
    let clock := st.current_time + (transfer_buffer_seconds : ℚ)
    let segment := enrichTrainSegment mbta_client edge (decide is_transfer)
      transfer_buffer_seconds clock
    { current_time := segment.arrival_time.getD clock
      enriched_segments := st.enriched_segments ++ [segment]
      total_distance := st.total_distance + edge.distance_meters.getD 0
      num_transfers := num_transfers
      current_line := line_name }
  else
    -- unknown edge type: skipped without appending (lines 439-441)
    st

/-- dijkstra_router.enrich_with_realtime, lines 158-463. -/
def enrich_with_realtime (path : List Edge) (departure_time : ℚ)
    (mbta_client : Option MbtaClient) (walking_speed_kmh : ℚ)
    (request_time : Option ℚ) : Route :=
  let request_time := request_time.getD departure_time
  let st := path.foldl (enrichStep mbta_client walking_speed_kmh)
    { current_time := departure_time }
  { segments := st.enriched_segments
    total_time_seconds := st.current_time - request_time
    total_distance_meters := st.total_distance
    num_transfers := st.num_transfers
    departure_time := some departure_time
    arrival_time := some st.current_time }

/-- dijkstra_router lines 552-556: whether any segment of the primary route
is rated risky or unlikely. -/
def has_risky_transfers (r : Route) : Bool :=
  r.segments.any (fun seg =>
    seg.transfer_rating = some "risky" ∨ seg.transfer_rating = some "unlikely")

/-- dijkstra_router lines 618-621: every segment rating is "likely" or
absent. -/
def all_transfers_likely (r : Route) : Bool :=
  r.segments.all (fun seg =>
    seg.transfer_rating = some "likely" ∨ seg.transfer_rating = none)

/-- dijkstra_router lines 609-612: recompute the total time of a candidate
from its arrival and the original request time (both must be truthy). -/
def recompute_total_time (request_time : Option ℚ) (r : Route) : Route :=
  match r.arrival_time, request_time with
  | some a, some rq => { r with total_time_seconds := a - rq }
  | _, _ => r

/-- One iteration of the candidate-collection loop of suggest_alternatives
(lines 581-647): break at the cap, try the adjusted departure, recompute
the total time, and in risk mode keep the candidate only when its
transfers all rate likely. -/
def collectStep (find_route_at : ℚ → Option Route) (risk_mode : Bool)
    (request_time : Option ℚ) (base_departure : ℚ) (max_alternatives : ℕ)
    (alternatives : List Route) (delay_seconds : ℚ) : List Route :=
  if alternatives.length ≥ max_alternatives then alternatives
  else
    match find_route_at (base_departure + delay_seconds) with
    | none => alternatives
    | some alt_route =>
      let alt_route := recompute_total_time request_time alt_route
      if risk_mode then
        if all_transfers_likely alt_route then alternatives ++ [alt_route]
        else alternatives
      else alternatives ++ [alt_route]

/-- The candidate-collection loop of suggest_alternatives (lines 579-647):
try +5/+10/+15 minute departures.  `find_route_at` abstracts
`await self.find_route(...)` at the given adjusted departure; `none` covers
both a None result and a raised exception. -/
def collectAlternatives (find_route_at : ℚ → Option Route) (risk_mode : Bool)
    (request_time : Option ℚ) (base_departure : ℚ) (max_alternatives : ℕ) :
    List Route :=
  [(300 : ℚ), 600, 900].foldl
    (collectStep find_route_at risk_mode request_time base_departure max_alternatives) []

/-- Modelled from the spec (§4.6 later-departure mode): the collection loop
with every found candidate kept unconditionally; used to state that the
non-risk mode of the code applies no rating filter. -/
def collectUnconditional (find_route_at : ℚ → Option Route)
    (request_time : Option ℚ) (base_departure : ℚ) (max_alternatives : ℕ) :
    List Route :=
  [(300 : ℚ), 600, 900].foldl (fun alternatives delay_seconds =>
    if alternatives.length ≥ max_alternatives then alternatives
    else
      match find_route_at (base_departure + delay_seconds) with
      | none => alternatives
      | some alt_route =>
        alternatives ++ [recompute_total_time request_time alt_route]) []

/-- The sort key of dijkstra_router line 657: the arrival time, with
`datetime.max` (here `⊤`) as the sentinel for a missing arrival. -/
def arrivalKey (r : Route) : WithTop ℚ :=
  match r.arrival_time with
  | some a => (a : WithTop ℚ)
  | none => ⊤

/-- `alternatives.sort(key=...)` of line 657. -/
def sortRoutes (l : List Route) : List Route :=
  l.mergeSort (fun a b => decide (arrivalKey a ≤ arrivalKey b))

/-- dijkstra_router.suggest_alternatives, lines 517-662.  The result is
`none` when the call raises: with a `None` primary departure time and a
positive cap, the first loop iteration raises a TypeError on
`base_departure + timedelta(...)` (line 585, outside the try block). -/
def suggest_alternatives (find_route_at : ℚ → Option Route) (primary_route : Route)
    (request_time : Option ℚ) (max_alternatives : ℕ) : Option (List Route) :=
  let risk := has_risky_transfers primary_route
  let request_time :=
    match request_time with
    | none => primary_route.departure_time
    | some q => some q
  match primary_route.departure_time with
  | none => if max_alternatives = 0 then some [] else none
  | some base_departure =>
    let alternatives :=
      collectAlternatives find_route_at risk request_time base_departure max_alternatives
    let alternatives :=
      match primary_route.arrival_time with
      | some pa => alternatives.filter (fun alt =>
          match alt.arrival_time with
          | some a => decide (a > pa)
          | none => false)
      | none => alternatives
    some ((sortRoutes alternatives).take max_alternatives)

/-- Label `a` dominates label `b`: fewer-or-equal transfers and
earlier-or-equal arrival, at least one strict (spec §3). -/
def dominatesLabel (a b : SearchLabel) : Prop :=
  a.1 ≤ b.1 ∧ a.2 ≤ b.2 ∧ (a.1 < b.1 ∨ a.2 < b.2)

instance (a b : SearchLabel) : Decidable (dominatesLabel a b) := by
  unfold dominatesLabel
  infer_instance

/-- A label list is a Pareto frontier: no label dominates another. -/
def ParetoList (l : List SearchLabel) : Prop :=
  l.Pairwise (fun x y => ¬ dominatesLabel x y ∧ ¬ dominatesLabel y x)

/-- Every station of the label map carries a Pareto frontier. -/
def ParetoAll (m : LabelMap) : Prop :=
  ∀ p ∈ m, ParetoList p.2

/-- A segment with both times set has a strictly later arrival. -/
def segChronoB (s : RouteSegment) : Bool :=
  match s.departure_time, s.arrival_time with
  | some d, some a => decide (d < a)
  | _, _ => true

/-- Adjacent segments are contiguous: matching endpoint stations and
non-decreasing clock across the boundary. -/
def contigB (s1 s2 : RouteSegment) : Bool :=
  decide (s1.to_station = s2.from_station) &&
  (match s1.arrival_time, s2.departure_time with
   | some a, some d => decide (a ≤ d)
   | _, _ => true)

/-- The whole segment chain is contiguous. -/
def chronoChainB : List RouteSegment → Bool
  | [] => true
  | [_] => true
  | a :: b :: rest => contigB a b && chronoChainB (b :: rest)

/-- The strict per-segment chronology of a route. -/
def StrictChronology (r : Route) : Prop :=
  ∀ s ∈ r.segments, segChronoB s = true

/-- The adjacent-pair chronology/contiguity of a route. -/
def ChronoContiguous (r : Route) : Prop :=
  chronoChainB r.segments = true

/-- Three-station graph with one short walk edge, used to exercise the
expansion of a popped state. -/
def dominanceGraph : TransitGraph :=
  { nodes := [("A", {}), ("B", {}), ("D", {})]
    edges := [{ from_ := "A", to_ := "B", type_ := some "walk",
                time_seconds := some 100, distance_meters := some 50 }]
    hav := fun _ _ => 0 }

/-- A popped state at station A arriving at t = 10 with no transfers. -/
def dominanceItem : PQItem :=
  { sort_key := (0, 10)
    current_arrival := 10
    current_station := "A"
    path := []
    num_transfers := 0
    current_line := none }

/-- A label map whose retained label (0 transfers, t = 0) at station A
strictly dominates `dominanceItem`. -/
def dominanceLabels : LabelMap := [("A", [(0, 0)])]

/-- A client whose every lookup raises. -/
def noopClient : RPClient := { get_next_departures := fun _ _ => none }

/-- A walk edge of zero length (with a positive nominal time). -/
def zeroDistanceWalkEdge : Edge :=
  { from_ := "A", to_ := "B", type_ := some "walk",
    time_seconds := some 300, distance_meters := some 0 }

/-- Two-station graph with a single train edge of 300 s nominal time. -/
def waitGraph : TransitGraph :=
  { nodes := [("S", {}), ("D", {})]
    edges := [{ from_ := "S", to_ := "D", type_ := some "train",
                line := some "Red Line", route_id := some "Red",
                time_seconds := some 300 }]
    hav := fun _ _ => 0 }

/-- A client reporting one departure at t = 600 for every query. -/
def waitClient : RPClient :=
  { get_next_departures := fun _ _ => some [{ departure_time := 600 }] }

/-- A train edge reached over a previous train edge of a different line. -/
def prevTrainEdge : Edge :=
  { from_ := "X", to_ := "A", type_ := some "train",
    line := some "Red Line", route_id := some "Red", time_seconds := some 240 }

/-- A train edge whose line differs from the line of `prevTrainEdge`. -/
def changedLineEdge : Edge :=
  { from_ := "A", to_ := "B", type_ := some "train",
    line := some "Orange Line", route_id := some "Orange", time_seconds := some 300 }

/-- A primary route with known departure and arrival and no transfers. -/
def primaryExample : Route :=
  { segments := []
    total_time_seconds := 100
    total_distance_meters := 0
    num_transfers := 0
    departure_time := some 0
    arrival_time := some 100 }

/-- A route oracle that never finds a route. -/
def noRouteOracle : ℚ → Option Route := fun _ => none

theorem pyInt_natCast (n : ℕ) : pyInt ((n : ℕ) : ℚ) = (n : ℤ) := by
  unfold pyInt
  rw [Rat.num_natCast, Rat.den_natCast]
  exact Int.tdiv_one _

/-- C4: rate_transfer returns LIKELY exactly when slack > 300 s, RISKY
exactly when 120 < slack ≤ 300, and UNLIKELY exactly when slack ≤ 120
(including negative slack); in particular rate(301) = likely,
rate(300) = risky, rate(121) = risky, rate(120) = unlikely,
rate(-30) = unlikely. -/
theorem rate_transfer_boundaries :
    (∀ s : ℚ,
      (rate_transfer s = .likely ↔ 300 < s)
      ∧ (rate_transfer s = .risky ↔ 120 < s ∧ s ≤ 300)
      ∧ (rate_transfer s = .unlikely ↔ s ≤ 120))
    ∧ rate_transfer 301 = .likely
    ∧ rate_transfer 300 = .risky
    ∧ rate_transfer 121 = .risky
    ∧ rate_transfer 120 = .unlikely
    ∧ rate_transfer (-30) = .unlikely := by
  have hmain : ∀ s : ℚ,
      (rate_transfer s = .likely ↔ 300 < s)
      ∧ (rate_transfer s = .risky ↔ 120 < s ∧ s ≤ 300)
      ∧ (rate_transfer s = .unlikely ↔ s ≤ 120) := by
    intro s
    unfold rate_transfer
    split_ifs with h1 h2 <;>
      refine ⟨?_, ?_, ?_⟩ <;> simp_all
    all_goals linarith
  refine ⟨hmain, ?_, ?_, ?_, ?_, ?_⟩
  · exact (hmain 301).1.mpr (by norm_num)
  · exact (hmain 300).2.1.mpr (by norm_num)
  · exact (hmain 121).2.1.mpr (by norm_num)
  · exact (hmain 120).2.2.mpr (by norm_num)
  · exact (hmain (-30)).2.2.mpr (by norm_num)

/-- C5: for every station, line pair and positive walking speed,
calculate_transfer_time returns
max(30, int(0.4*B + 0.6*B*(5.0/speed))) with B the per-station base buffer
plus per-line-pair adjustment; the 180 s + 30 s station at 5.0 km/h gives
exactly 210 s, and the result is never below 30 s. -/
theorem calculate_transfer_time_formula :
    (∀ (station_id : String) (from_line to_line : Option String) (v : ℚ), 0 < v →
      calculate_transfer_time station_id from_line to_line v
        = max 30 (pyInt ((2/5 : ℚ) * (buffer_base_total station_id from_line to_line : ℕ)
            + (3/5 : ℚ) * (buffer_base_total station_id from_line to_line : ℕ) * (5 / v)))
      ∧ 30 ≤ calculate_transfer_time station_id from_line to_line v)
    ∧ calculate_transfer_time "place-pktrm" (some "Red Line") (some "Green Line") 5 = 210 := by
  have hmain : ∀ (station_id : String) (from_line to_line : Option String) (v : ℚ), 0 < v →
      calculate_transfer_time station_id from_line to_line v
        = max 30 (pyInt ((2/5 : ℚ) * (buffer_base_total station_id from_line to_line : ℕ)
            + (3/5 : ℚ) * (buffer_base_total station_id from_line to_line : ℕ) * (5 / v)))
      ∧ 30 ≤ calculate_transfer_time station_id from_line to_line v := by
    intro station_id from_line to_line v hv
    constructor
    · simp only [calculate_transfer_time, buffer_base_total]
      rw [if_pos hv, max_comm]
      congr 1
      congr 1
      push_cast
      ring
    · simp only [calculate_transfer_time]
      exact le_max_right _ _
  refine ⟨hmain, ?_⟩
  have h := (hmain "place-pktrm" (some "Red Line") (some "Green Line") 5 (by norm_num)).1
  rw [h]
  have hB : buffer_base_total "place-pktrm" (some "Red Line") (some "Green Line") = 210 := by
    decide
  rw [hB]
  have harg : ((2/5 : ℚ)) * ((210 : ℕ) : ℚ) + ((3/5 : ℚ)) * ((210 : ℕ) : ℚ) * (5/5)
      = ((210 : ℕ) : ℚ) := by
    push_cast
    norm_num
  rw [harg, pyInt_natCast]
  norm_num

/-- C10: calculate_transfer_time never divides by zero: for every
non-positive walking speed the speed factor falls back to 1.0, so the
result is the unadjusted base buffer floored at 30 s, the same value as at
the baseline 5.0 km/h. -/
theorem calculate_transfer_time_nonpositive_speed :
    ∀ (station_id : String) (from_line to_line : Option String) (v : ℚ), v ≤ 0 →
      calculate_transfer_time station_id from_line to_line v
        = max 30 (buffer_base_total station_id from_line to_line : ℤ)
      ∧ calculate_transfer_time station_id from_line to_line v
        = calculate_transfer_time station_id from_line to_line 5 := by
  intro station_id from_line to_line v hv
  have hnot : ¬ (0 : ℚ) < v := not_lt.mpr hv
  have h5 : (0 : ℚ) < 5 := by norm_num
  constructor
  · simp only [calculate_transfer_time, buffer_base_total]
    rw [if_neg hnot, max_comm]
    congr 1
    calc pyInt _ = pyInt ((buffer_base_total station_id from_line to_line : ℕ) : ℚ) := by
          congr 1
          simp only [buffer_base_total]
          push_cast
          ring
    _ = (buffer_base_total station_id from_line to_line : ℤ) := pyInt_natCast _
  · simp only [calculate_transfer_time]
    rw [if_neg hnot, if_pos h5]
    norm_num

/-- Witness for C5 at walking speed 5 km/h. -/
theorem calculate_transfer_time_formula_witness :
    calculate_transfer_time "place-sstat" none none 5
      = max 30 (pyInt ((2/5 : ℚ) * (buffer_base_total "place-sstat" none none : ℕ)
          + (3/5 : ℚ) * (buffer_base_total "place-sstat" none none : ℕ) * (5 / 5)))
    ∧ 30 ≤ calculate_transfer_time "place-sstat" none none 5 :=
  calculate_transfer_time_formula.1 "place-sstat" none none 5 (by norm_num)

/-- Witness for C10 at walking speed 0 km/h. -/
theorem calculate_transfer_time_nonpositive_speed_witness :
    calculate_transfer_time "place-pktrm" none none 0
      = max 30 (buffer_base_total "place-pktrm" none none : ℤ)
    ∧ calculate_transfer_time "place-pktrm" none none 0
      = calculate_transfer_time "place-pktrm" none none 5 :=
  calculate_transfer_time_nonpositive_speed "place-pktrm" none none 0 (by norm_num)

/-- C8 (amended): route_planner.TransitGraph.find_shortest_path uses edge
weight durationSeconds plus a 180 s penalty exactly when the caller prefers
fewer transfers, a current line is set, and a traversed train edge's line
differs from it (and no penalty when transfer-minimisation is disabled);
DijkstraRouter.find_shortest_path instead adds a fixed 1 s tie-break
penalty, applied when consecutive train edges carry different truthy
line/route identifiers. -/
theorem static_finder_edge_weights :
    (∀ (cl : Option String) (t : ℚ) (e : Edge),
      (rp_total_time true cl t e
        = t + e.time_seconds.getD 0 +
          (if pyTruthyOpt cl = true ∧ e.type_ = some "train" ∧ e.line ≠ cl
            then (180 : ℚ) else 0))
      ∧ rp_total_time false cl t e = t + e.time_seconds.getD 0)
    ∧ (∀ (path : List Edge) (t : ℚ) (e : Edge),
      dj_new_time t path e
        = t + e.time_seconds.getD 0 +
          (if pyTruthyOpt (dj_current_line path) = true
              ∧ pyTruthyOpt (pyOrStr e.line e.route_id) = true
              ∧ dj_current_line path ≠ pyOrStr e.line e.route_id
              ∧ e.type_.getD "train" = "train"
              ∧ dj_last_edge_type path = "train"
            then (1 : ℚ) else 0)) := by
  constructor
  · intro cl t e
    constructor
    · simp only [rp_total_time, rp_transfer_penalty, TRANSFER_PENALTY]
      norm_num
    · simp only [rp_total_time, rp_transfer_penalty, TRANSFER_PENALTY]
      norm_num
  · intro path t e
    have hpen : dj_line_change_penalty path e
        = if pyTruthyOpt (dj_current_line path) = true
            ∧ pyTruthyOpt (pyOrStr e.line e.route_id) = true
            ∧ dj_current_line path ≠ pyOrStr e.line e.route_id
            ∧ e.type_.getD "train" = "train"
            ∧ dj_last_edge_type path = "train"
          then (1 : ℚ) else 0 := by
      simp only [dj_line_change_penalty]
      by_cases hA : pyTruthyOpt (dj_current_line path) = true
          ∧ pyTruthyOpt (pyOrStr e.line e.route_id) = true
          ∧ dj_current_line path ≠ pyOrStr e.line e.route_id
      · rw [if_pos hA]
        by_cases hB : e.type_.getD "train" = "train" ∧ dj_last_edge_type path = "train"
        · rw [if_pos hB, if_pos ⟨hA.1, hA.2.1, hA.2.2, hB.1, hB.2⟩]
        · rw [if_neg hB, if_neg]
          intro hall
          exact hB ⟨hall.2.2.2.1, hall.2.2.2.2⟩
      · rw [if_neg hA, if_neg]
        intro hall
        exact hA ⟨hall.1, hall.2.1, hall.2.2.1⟩
    simp only [dj_new_time]
    rw [hpen]

/-- C8 counterexample: on a train edge whose line differs from the line of
the previous train edge, DijkstraRouter.find_shortest_path computes
duration + 1 s, not duration + 180 s. -/
theorem dijkstra_penalty_is_one_second :
    dj_new_time 0 [prevTrainEdge] changedLineEdge = 301
    ∧ dj_new_time 0 [prevTrainEdge] changedLineEdge
        ≠ 0 + changedLineEdge.time_seconds.getD 0 + 180 := by
  have h : dj_new_time 0 [prevTrainEdge] changedLineEdge = 301 := by
    simp [dj_new_time, dj_line_change_penalty, dj_last_edge_type, dj_current_line, pyOrStr,
      pyTruthyOpt, pyTruthyStr, prevTrainEdge, changedLineEdge]
    norm_num
  refine ⟨h, ?_⟩
  rw [h]
  norm_num [changedLineEdge]

/-- Unfolding equation for one popped state of the search loop. -/
theorem searchLoop_succ_cons (g : TransitGraph) (client : RPClient)
    (end_station_id : String) (prefer : Bool) (max_transfers fuel : ℕ)
    (x : PQItem) (xs : List PQItem) (best_labels : LabelMap) (paths_explored : ℕ) :
    searchLoop g client end_station_id prefer max_transfers (fuel + 1) (x :: xs)
        best_labels paths_explored
      = (if (popMin1 x xs).1.current_station = end_station_id then
          ⟨some (_build_route (popMin1 x xs).1.path), paths_explored + 1, false⟩
        else
          searchLoop g client end_station_id prefer max_transfers fuel
            ((popMin1 x xs).2
              ++ (expandEdges g client end_station_id prefer max_transfers
                    (popMin1 x xs).1 best_labels).2)
            (expandEdges g client end_station_id prefer max_transfers
              (popMin1 x xs).1 best_labels).1
            (paths_explored + 1)) := rfl

/-- C6 (amended): every Route produced by enrich_with_realtime has
total_time_seconds exactly equal to arrival_time minus the request time
(the departure time when no separate request time is supplied), so the
initial wait is included. -/
theorem enrich_total_time_is_arrival_minus_request :
    ∀ (path : List Edge) (departure_time : ℚ) (client : Option MbtaClient)
      (v : ℚ) (request_time : Option ℚ),
      ∃ a, (enrich_with_realtime path departure_time client v request_time).arrival_time
            = some a
        ∧ (enrich_with_realtime path departure_time client v request_time).total_time_seconds
            = a - request_time.getD departure_time := by
  intro path dep client v req
  exact ⟨_, rfl, rfl⟩

/-- C6 counterexample: find_time_aware_path returns a Route whose
total_time_seconds is 300, the sum of the segment durations, although the
route arrives 900 s after the request time 0 (the train departs at 600);
600 s of initial wait are missing, far outside the 1 s tolerance. -/
theorem time_aware_total_is_sum_of_durations :
    (find_time_aware_path waitGraph waitClient "S" "D" 0 true 3).map
        (fun r => (r.total_time_seconds, r.arrival_time)) = some (300, some 900)
    ∧ ¬ |(300 : ℚ) - (900 - 0)| ≤ 1 := by
  constructor
  · rw [show find_time_aware_path waitGraph waitClient "S" "D" 0 true 3
        = timeAwareSearch waitGraph waitClient "S" "D" 0 true 3 by
      simp [find_time_aware_path, TransitGraph.hasNode, TransitGraph.adjacency, waitGraph]]
    simp only [timeAwareSearch]
    rw [show (MAX_EXPLORATIONS : ℕ) = 1999 + 1 from rfl, searchLoop_succ_cons]
    simp only [popMin1]
    simp [waitGraph]
    simp [expandEdges, processEdge, edgeTransition, applyLabelUpdate, TransitGraph.adjacency,
      TransitGraph.nodesGet, walks_to_destination_line, pySegmentTime, labelsGet, labelsSet,
      pyTruthyOpt, pyTruthyStr, waitClient, decide_eq_true_eq]
    rw [show (1999 : ℕ) = 1998 + 1 from rfl, searchLoop_succ_cons]
    simp [popMin1, _build_route, buildRouteStep]
    norm_num
  · rw [abs_of_nonpos (by norm_num)]
    norm_num

/-- C1 (code bug): a state popped at station A that is strictly dominated
by the retained label (0 transfers, t = 0) — the pop-time dominance flag of
lines 356-362 is true — is nevertheless expanded: the loop body pushes its
neighbor onto the queue, because the source never branches on the computed
flag. -/
theorem dominated_pop_still_expanded :
    isDominatedOnPop dominanceLabels dominanceItem = true
    ∧ (expandEdges dominanceGraph noopClient "D" true 3 dominanceItem dominanceLabels).2
        ≠ [] := by
  constructor
  · simp [isDominatedOnPop, dominanceLabels, dominanceItem, labelsGet]
  · simp [expandEdges, processEdge, edgeTransition, applyLabelUpdate, TransitGraph.adjacency,
      TransitGraph.nodesGet, walks_to_destination_line, pySegmentTime, labelsGet, labelsSet,
      pyTruthyOpt, pyTruthyStr, dominanceGraph, dominanceItem, dominanceLabels, noopClient,
      decide_eq_true_eq]
    norm_num

/-- C9: the search loop pops at most `fuel` further states (the counter
grows by at most `fuel`), and whenever it stops because the exploration cap
was reached before a destination state was popped, it returns no route; in
particular the loop as invoked by find_time_aware_path (fuel
MAX_EXPLORATIONS, counter 0) pops at most 2000 states. -/
theorem exploration_cap :
    (∀ (g : TransitGraph) (client : RPClient) (end_station_id : String) (prefer : Bool)
        (max_transfers fuel : ℕ) (pq : List PQItem) (labels : LabelMap) (n : ℕ),
      (searchLoop g client end_station_id prefer max_transfers fuel pq labels n).explored
          ≤ n + fuel
      ∧ ((searchLoop g client end_station_id prefer max_transfers fuel pq labels n).capped
            = true →
          (searchLoop g client end_station_id prefer max_transfers fuel pq labels n).route
            = none))
    ∧ (∀ (g : TransitGraph) (client : RPClient) (end_station_id : String) (prefer : Bool)
        (max_transfers : ℕ) (pq : List PQItem) (labels : LabelMap),
      (searchLoop g client end_station_id prefer max_transfers MAX_EXPLORATIONS
          pq labels 0).explored ≤ 2000) := by
  have H : ∀ (fuel : ℕ) (g : TransitGraph) (client : RPClient) (end_station_id : String)
      (prefer : Bool) (max_transfers : ℕ) (pq : List PQItem) (labels : LabelMap) (n : ℕ),
      (searchLoop g client end_station_id prefer max_transfers fuel pq labels n).explored
          ≤ n + fuel
      ∧ ((searchLoop g client end_station_id prefer max_transfers fuel pq labels n).capped
            = true →
          (searchLoop g client end_station_id prefer max_transfers fuel pq labels n).route
            = none) := by
    intro fuel
    induction fuel with
    | zero =>
      intro g client e p m pq labels n
      cases pq with
      | nil => simp [searchLoop]
      | cons x xs => simp [searchLoop]
    | succ fuel ih =>
      intro g client e p m pq labels n
      cases pq with
      | nil => simp [searchLoop]
      | cons x xs =>
        rw [searchLoop_succ_cons]
        split_ifs with hdest
        · constructor
          · simp
          · simp
        · have hrec := ih g client e p m
            ((popMin1 x xs).2 ++ (expandEdges g client e p m (popMin1 x xs).1 labels).2)
            (expandEdges g client e p m (popMin1 x xs).1 labels).1 (n + 1)
          constructor
          · calc _ ≤ (n + 1) + fuel := hrec.1
            _ = n + (fuel + 1) := by omega
          · exact hrec.2
  refine ⟨fun g c e p m fuel pq l n => H fuel g c e p m pq l n, ?_⟩
  intro g c e p m pq l
  have := (H MAX_EXPLORATIONS g c e p m pq l 0).1
  simpa [MAX_EXPLORATIONS] using this

theorem pareto_labelsGet (m : LabelMap) (s : String) (hm : ParetoAll m) :
    ParetoList (labelsGet m s) := by
  cases hfind : m.find? (fun p => p.1 = s) with
  | none => simp [labelsGet, hfind, ParetoList]
  | some p =>
    have hp : p ∈ m := List.mem_of_find?_eq_some hfind
    simpa [labelsGet, hfind] using hm p hp

theorem pareto_updateLabels (l : List SearchLabel) (t : ℕ) (a : ℚ)
    (h : ParetoList l) : ParetoList (updateLabels l t a) := by
  unfold updateLabels
  split_ifs with hdom
  · exact h
  · simp only [List.any_eq_true, decide_eq_true_eq, not_exists, not_and] at hdom
    unfold ParetoList
    rw [List.pairwise_append]
    refine ⟨h.sublist (List.filter_sublist _), List.pairwise_singleton _ _, ?_⟩
    intro x hx y hy
    rw [List.mem_singleton] at hy
    subst hy
    rw [List.mem_filter] at hx
    obtain ⟨hxl, hxf⟩ := hx
    simp only [decide_eq_true_eq] at hxf
    constructor
    · intro hd
      exact hdom x hxl hd.1 hd.2.1
    · intro hd
      exact hxf ⟨hd.1, hd.2.1⟩

theorem pareto_labelsSet (m : LabelMap) (s : String) (v : List SearchLabel)
    (hm : ParetoAll m) (hv : ParetoList v) : ParetoAll (labelsSet m s v) := by
  unfold labelsSet
  split_ifs with hs
  · intro p hp
    rw [List.mem_map] at hp
    obtain ⟨q, hq, rfl⟩ := hp
    split_ifs with hqs
    · exact hv
    · exact hm q hq
  · intro p hp
    rw [List.mem_append] at hp
    rcases hp with hp | hp
    · exact hm p hp
    · rw [List.mem_singleton] at hp
      subst hp
      exact hv

theorem pareto_applyLabelUpdate (g : TransitGraph) (end_station_id : String)
    (prefer : Bool) (item : PQItem) (edge : Edge) (next_arrival : ℚ)
    (new_transfers : ℕ) (new_line : Option String) (meta_departure : Option ℚ)
    (meta_status : Option String) (st : LabelMap × List PQItem)
    (h : ParetoAll st.1) :
    ParetoAll (applyLabelUpdate g end_station_id prefer item edge next_arrival
      new_transfers new_line meta_departure meta_status st).1 := by
  simp only [applyLabelUpdate]
  split_ifs with hdom hpref
  · exact h
  all_goals
    apply pareto_labelsSet _ _ _ h
  all_goals
    have hupd := pareto_updateLabels (labelsGet st.1 edge.to_) new_transfers next_arrival
      (pareto_labelsGet st.1 edge.to_ h)
  all_goals
    unfold updateLabels at hupd
    rw [if_neg hdom] at hupd
    exact hupd

theorem pareto_processEdge (g : TransitGraph) (client : RPClient)
    (end_station_id : String) (prefer : Bool) (max_transfers : ℕ) (item : PQItem)
    (serves_trains : Bool) (reach_same_line : List String)
    (st : LabelMap × List PQItem) (edge : Edge) (h : ParetoAll st.1) :
    ParetoAll (processEdge g client end_station_id prefer max_transfers item
      serves_trains reach_same_line st edge).1 := by
  unfold processEdge
  cases htr : edgeTransition g client end_station_id max_transfers item serves_trains
      reach_same_line edge with
  | none => exact h
  | some v =>
    obtain ⟨na, nt, nl, md, ms⟩ := v
    exact pareto_applyLabelUpdate g end_station_id prefer item edge na nt nl md ms st h

theorem pareto_expandEdges (g : TransitGraph) (client : RPClient)
    (end_station_id : String) (prefer : Bool) (max_transfers : ℕ) (item : PQItem)
    (labels : LabelMap) (h : ParetoAll labels) :
    ParetoAll (expandEdges g client end_station_id prefer max_transfers item labels).1 := by
  unfold expandEdges
  have key : ∀ (serves_trains : Bool) (reach_same_line : List String) (es : List Edge)
      (st : LabelMap × List PQItem), ParetoAll st.1 →
      ParetoAll (es.foldl (processEdge g client end_station_id prefer max_transfers item
        serves_trains reach_same_line) st).1 := by
    intro serves_trains reach_same_line es
    induction es with
    | nil => intro st hst; exact hst
    | cons e es ih =>
      intro st hst
      rw [List.foldl_cons]
      exact ih _ (pareto_processEdge g client end_station_id prefer max_transfers item
        serves_trains reach_same_line st e hst)
  exact key _ _ _ _ h

/-- C2: the retained label set at each station is always a Pareto frontier:
the initial label map is one, the per-station update of lines 542-553 maps
Pareto frontiers to Pareto frontiers, and the full neighbor-expansion pass
(the only step of the search that writes best_labels) preserves the
property for every station. -/
theorem pareto_frontier_invariant :
    (∀ (s : String) (t : ℚ), ParetoAll [(s, [(0, t)])])
    ∧ (∀ (l : List SearchLabel) (t : ℕ) (a : ℚ),
        ParetoList l → ParetoList (updateLabels l t a))
    ∧ (∀ (g : TransitGraph) (client : RPClient) (end_station_id : String)
        (prefer : Bool) (max_transfers : ℕ) (item : PQItem) (labels : LabelMap),
        ParetoAll labels →
        ParetoAll (expandEdges g client end_station_id prefer max_transfers
          item labels).1) := by
  refine ⟨?_, pareto_updateLabels, ?_⟩
  · intro s t p hp
    rw [List.mem_singleton] at hp
    subst hp
    exact List.pairwise_singleton _ _
  · intro g client end_station_id prefer max_transfers item labels h
    exact pareto_expandEdges g client end_station_id prefer max_transfers item labels h

/-- Witness for C2: the invariant applied to a concrete expansion step. -/
theorem pareto_frontier_invariant_witness :
    ParetoAll (expandEdges dominanceGraph noopClient "D" true 3 dominanceItem
      [("A", [(0, 0)])]).1 :=
  pareto_frontier_invariant.2.2 dominanceGraph noopClient "D" true 3 dominanceItem
    [("A", [(0, 0)])] (by
      intro p hp
      rw [List.mem_singleton] at hp
      subst hp
      exact List.pairwise_singleton _ _)

theorem collect_risk_all_likely (find_route_at : ℚ → Option Route)
    (request_time : Option ℚ) (base_departure : ℚ) (max_alternatives : ℕ) :
    ∀ r ∈ collectAlternatives find_route_at true request_time base_departure
      max_alternatives, all_transfers_likely r = true := by
  have key : ∀ (ds : List ℚ) (acc : List Route),
      (∀ r ∈ acc, all_transfers_likely r = true) →
      ∀ r ∈ ds.foldl (collectStep find_route_at true request_time base_departure
        max_alternatives) acc, all_transfers_likely r = true := by
    intro ds
    induction ds with
    | nil =>
      intro acc hacc
      simpa using hacc
    | cons d ds ih =>
      intro acc hacc
      rw [List.foldl_cons]
      apply ih
      intro r hr
      unfold collectStep at hr
      split_ifs at hr with hlen htrue
      · exact hacc r hr
      · cases hf : find_route_at (base_departure + d) with
        | none =>
          rw [hf] at hr
          exact hacc r hr
        | some alt =>
          rw [hf] at hr
          by_cases hlik :
              all_transfers_likely (recompute_total_time request_time alt) = true
          · simp only [hlik, if_true, List.mem_append, List.mem_singleton] at hr
            rcases hr with hr | hr
            · exact hacc r hr
            · subst hr
              exact hlik
          · simp only [Bool.not_eq_true] at hlik
            simp only [hlik, Bool.false_eq_true, if_false] at hr
            exact hacc r hr
      · exact absurd rfl htrue
  intro r hr
  exact key _ [] (by simp) r hr

theorem sortRoutes_pairwise (l : List Route) :
    List.Pairwise (fun r1 r2 => arrivalKey r1 ≤ arrivalKey r2) (sortRoutes l) := by
  unfold sortRoutes
  have h := @List.sorted_mergeSort Route
    (fun a b : Route => decide (arrivalKey a ≤ arrivalKey b))
    (fun a b c hab hbc => by
      simp only [decide_eq_true_eq] at *
      exact le_trans hab hbc)
    (fun a b => by
      simp only [Bool.or_eq_true, decide_eq_true_eq]
      exact le_total _ _)
    l
  exact h.imp (fun hab => by simpa using hab)

/-- C7: given a primary route with a known arrival, every route returned by
suggest_alternatives arrives strictly later than the primary, the list is
sorted ascending by arrival and no longer than max_alternatives; in risk
mode every returned route has only "likely"/absent transfer ratings, and in
later-departure mode the collection loop keeps every found candidate
unconditionally. -/
theorem suggest_alternatives_properties :
    ∀ (find_route_at : ℚ → Option Route) (primary : Route) (request_time : Option ℚ)
      (max_alternatives : ℕ) (pa : ℚ) (alts : List Route),
      primary.arrival_time = some pa →
      suggest_alternatives find_route_at primary request_time max_alternatives
        = some alts →
      (∀ r ∈ alts, ∃ a, r.arrival_time = some a ∧ pa < a)
      ∧ List.Pairwise (fun r1 r2 => arrivalKey r1 ≤ arrivalKey r2) alts
      ∧ alts.length ≤ max_alternatives
      ∧ (has_risky_transfers primary = true →
          ∀ r ∈ alts, all_transfers_likely r = true)
      ∧ (has_risky_transfers primary = false →
          ∀ base : ℚ,
            collectAlternatives find_route_at false request_time base max_alternatives
              = collectUnconditional find_route_at request_time base max_alternatives) := by
  intro f primary req k pa alts hpa hresult
  have hmode : ∀ base : ℚ,
      collectAlternatives f false req base k = collectUnconditional f req base k := by
    intro base
    simp [collectAlternatives, collectStep, collectUnconditional]
  simp only [suggest_alternatives] at hresult
  cases hdep : primary.departure_time with
  | none =>
    rw [hdep] at hresult
    simp only [] at hresult
    split_ifs at hresult with hk
    rw [Option.some_inj] at hresult
    subst hresult
    refine ⟨by simp, by simp, by simp, by simp, fun _ => hmode⟩
  | some base =>
    rw [hdep, hpa] at hresult
    simp only [Option.some_inj] at hresult
    subst hresult
    set req2 := match req with | none => some base | some q => some q with hreq2
    set collected := collectAlternatives f (has_risky_transfers primary) req2 base k
      with hcollected
    set filtered := collected.filter (fun alt =>
      match alt.arrival_time with
      | some a => decide (a > pa)
      | none => false) with hfiltered
    have hmem : ∀ r ∈ (sortRoutes filtered).take k, r ∈ filtered := by
      intro r hr
      have hr2 : r ∈ sortRoutes filtered := List.mem_of_mem_take hr
      simp only [sortRoutes] at hr2
      exact List.mem_mergeSort.mp hr2
    refine ⟨?_, ?_, ?_, ?_, fun _ => hmode⟩
    · intro r hr
      have hrf : r ∈ filtered := hmem r hr
      rw [hfiltered, List.mem_filter] at hrf
      obtain ⟨_, hpred⟩ := hrf
      cases ha : r.arrival_time with
      | none => rw [ha] at hpred; cases hpred
      | some a =>
        rw [ha] at hpred
        simp only [decide_eq_true_eq] at hpred
        exact ⟨a, rfl, hpred⟩
    · exact (sortRoutes_pairwise filtered).sublist (List.take_sublist _ _)
    · exact List.length_take_le _ _
    · intro hrisk r hr
      have hrf : r ∈ filtered := hmem r hr
      rw [hfiltered, List.mem_filter] at hrf
      have hrc : r ∈ collected := hrf.1
      rw [hcollected, hrisk] at hrc
      exact collect_risk_all_likely f req2 base k r hrc

/-- Witness for C7: the theorem applied to a concrete primary route and an
oracle that finds no candidates. -/
theorem suggest_alternatives_properties_witness :
    (∀ r ∈ ([] : List Route), ∃ a, r.arrival_time = some a ∧ (100 : ℚ) < a)
    ∧ List.Pairwise (fun r1 r2 => arrivalKey r1 ≤ arrivalKey r2) ([] : List Route)
    ∧ ([] : List Route).length ≤ 3
    ∧ (has_risky_transfers primaryExample = true →
        ∀ r ∈ ([] : List Route), all_transfers_likely r = true)
    ∧ (has_risky_transfers primaryExample = false →
        ∀ base : ℚ,
          collectAlternatives noRouteOracle false none base 3
            = collectUnconditional noRouteOracle none base 3) :=
  suggest_alternatives_properties noRouteOracle primaryExample none 3 100 [] rfl (by
    simp [suggest_alternatives, primaryExample, collectAlternatives, collectStep,
      noRouteOracle, sortRoutes, List.mergeSort_nil])

theorem resolveDestArrival_gt (client : MbtaClient) (to_station : String)
    (next_train : Departure) (dep_time a : ℚ)
    (h : resolveDestArrival client to_station next_train dep_time = some a) :
    dep_time < a := by
  unfold resolveDestArrival at h
  split_ifs at h with hc
  · cases hp : client.get_predictions to_station (next_train.trip_id.getD "") with
    | none => rw [hp] at h; cases h
    | some preds =>
      rw [hp] at h
      cases preds with
      | nil => cases h
      | cons dest_pred rest =>
        dsimp only at h
        cases hpa : dest_pred.arrival_time with
        | none => rw [hpa] at h; cases h
        | some a2 =>
          rw [hpa] at h
          dsimp only at h
          split_ifs at h with hgt
          rw [Option.some_inj] at h
          subst h
          exact hgt

theorem enrichTrainSegment_times (client : Option MbtaClient) (edge : Edge)
    (it : Bool) (buf : ℤ) (clock : ℚ)
    (hstatic : 0 < edge.time_seconds.getD 120) :
    ∃ d a, (enrichTrainSegment client edge it buf clock).departure_time = some d
      ∧ (enrichTrainSegment client edge it buf clock).arrival_time = some a
      ∧ clock ≤ d ∧ d < a
      ∧ (enrichTrainSegment client edge it buf clock).from_station = edge.from_
      ∧ (enrichTrainSegment client edge it buf clock).to_station = edge.to_ := by
  unfold enrichTrainSegment
  cases client with
  | none =>
    exact ⟨clock, clock + edge.time_seconds.getD 120, rfl, rfl, le_refl _,
      by linarith, rfl, rfl⟩
  | some c =>
    cases hdeps : c.get_next_departures edge.from_ edge.route_id with
    | none =>
      simp only [hdeps]
      refine ⟨clock, clock + edge.time_seconds.getD 120, ?_, ?_, le_refl _, by linarith, ?_, ?_⟩
      all_goals first | rfl | trivial
    | some departures =>
      simp only [hdeps]
      cases hval : departures.filter (fun d => d.departure_time ≥ clock) with
      | nil =>
        simp only [hval]
        refine ⟨clock, clock + edge.time_seconds.getD 120, ?_, ?_, le_refl _, by linarith, ?_, ?_⟩
        all_goals first | rfl | trivial
      | cons next_train rest =>
        simp only [hval]
        have hmemf : next_train ∈ departures.filter (fun d => d.departure_time ≥ clock) := by
          rw [hval]
          exact List.mem_cons_self _ _
        have hge : clock ≤ next_train.departure_time := by
          have h2 := (List.mem_filter.mp hmemf).2
          simpa using h2
        cases hres : resolveDestArrival c edge.to_ next_train next_train.departure_time with
        | none =>
          simp only [hres]
          refine ⟨next_train.departure_time,
            next_train.departure_time + edge.time_seconds.getD 120, ?_, ?_, hge,
            by linarith, ?_, ?_⟩
          all_goals first | rfl | trivial
        | some a =>
          simp only [hres]
          refine ⟨next_train.departure_time, a, ?_, ?_, hge,
            resolveDestArrival_gt c edge.to_ next_train next_train.departure_time a hres,
            ?_, ?_⟩
          all_goals first | rfl | trivial

theorem chronoChainB_append (l : List RouteSegment) (x : RouteSegment)
    (hl : chronoChainB l = true)
    (hlast : ∀ s, l.getLast? = some s → contigB s x = true) :
    chronoChainB (l ++ [x]) = true := by
  induction l with
  | nil => simp [chronoChainB]
  | cons a l ih =>
    cases l with
    | nil =>
      simp only [List.nil_append, List.singleton_append, chronoChainB, Bool.and_eq_true]
      refine ⟨hlast a rfl, ?_⟩
      first | rfl | trivial
    | cons b l2 =>
      simp only [List.cons_append, chronoChainB, Bool.and_eq_true] at hl ⊢
      refine ⟨hl.1, ?_⟩
      have := ih hl.2 (fun s hs => hlast s (by rw [List.getLast?_cons_cons]; exact hs))
      simpa using this

theorem enrichStep_spec (client : Option MbtaClient) (v : ℚ) (hv : 0 < v)
    (st : EnrichState) (e : Edge)
    (hval : (e.type_.getD "train" = "walk" ∧ 0 < e.distance_meters.getD 0)
        ∨ (e.type_.getD "train" = "train" ∧ 0 < e.time_seconds.getD 120)) :
    ∃ seg d a,
      (enrichStep client v st e).enriched_segments = st.enriched_segments ++ [seg]
      ∧ seg.from_station = e.from_
      ∧ seg.to_station = e.to_
      ∧ seg.departure_time = some d
      ∧ seg.arrival_time = some a
      ∧ st.current_time ≤ d
      ∧ d < a
      ∧ (enrichStep client v st e).current_time = a := by
  rcases hval with ⟨hty, hpos⟩ | ⟨hty, hpos⟩
  · have hspeed : (0:ℚ) < v * 1000 / 3600 := by positivity
    have hwt : (0:ℚ) < e.distance_meters.getD 0 / (v * 1000 / 3600) := div_pos hpos hspeed
    simp only [enrichStep, hty, if_true]
    rw [if_pos hspeed]
    exact ⟨_, st.current_time,
      st.current_time + e.distance_meters.getD 0 / (v * 1000 / 3600),
      rfl, rfl, rfl, rfl, rfl, le_refl _, by linarith, rfl⟩
  · simp only [enrichStep, hty, String.reduceEq, if_false, if_true]
    set B := (if st.current_line ≠ none ∧ ¬ is_same_line_family e.line st.current_line = true
      then calculate_transfer_time e.from_ st.current_line e.line v else 0) with hB
    set X := decide (st.current_line ≠ none ∧ ¬ is_same_line_family e.line st.current_line = true)
      with hX
    have hbuf : (0:ℤ) ≤ B := by
      rw [hB]
      split_ifs
      · calc (0:ℤ) ≤ 30 := by norm_num
          _ ≤ calculate_transfer_time e.from_ st.current_line e.line v := by
            simp only [calculate_transfer_time]
            exact le_max_right _ _
      · exact le_refl 0
    obtain ⟨d, a, hd, ha, hcd, hda, hfrom, hto⟩ :=
      enrichTrainSegment_times client e X B (st.current_time + (B:ℚ)) hpos
    refine ⟨_, d, a, rfl, hfrom, hto, hd, ha, ?_, hda, ?_⟩
    · have hb2 : (0:ℚ) ≤ (B:ℚ) := by exact_mod_cast hbuf
      linarith
    · show (enrichTrainSegment client e X B (st.current_time + (B:ℚ))).arrival_time.getD
        (st.current_time + (B:ℚ)) = a
      rw [ha]
      rfl

theorem enrich_fold_chrono (client : Option MbtaClient) (v : ℚ) (hv : 0 < v) :
    ∀ (path : List Edge) (st : EnrichState),
      (∀ e ∈ path,
        (e.type_.getD "train" = "walk" ∧ 0 < e.distance_meters.getD 0)
        ∨ (e.type_.getD "train" = "train" ∧ 0 < e.time_seconds.getD 120)) →
      List.Chain' (fun e1 e2 => e1.to_ = e2.from_) path →
      (∀ s ∈ st.enriched_segments, segChronoB s = true) →
      chronoChainB st.enriched_segments = true →
      (∀ s, st.enriched_segments.getLast? = some s → s.arrival_time = some st.current_time) →
      (∀ s e, st.enriched_segments.getLast? = some s → path.head? = some e →
          s.to_station = e.from_) →
      (∀ s ∈ (path.foldl (enrichStep client v) st).enriched_segments, segChronoB s = true)
      ∧ chronoChainB (path.foldl (enrichStep client v) st).enriched_segments = true := by
  intro path
  induction path with
  | nil =>
    intro st _ _ h1 h2 _ _
    exact ⟨h1, h2⟩
  | cons e rest ih =>
    intro st hvalid hchain h1 h2 hlast hcompat
    rw [List.foldl_cons]
    obtain ⟨seg, d, a, hsegs, hfrom, hto, hd, ha, hcd, hda, hct⟩ :=
      enrichStep_spec client v hv st e (hvalid e (List.mem_cons_self e rest))
    have hchr : segChronoB seg = true := by
      unfold segChronoB
      rw [hd, ha]
      simp [hda]
    apply ih
    · intro e2 he2
      exact hvalid e2 (List.mem_cons_of_mem _ he2)
    · exact hchain.tail
    · intro s hs
      rw [hsegs, List.mem_append] at hs
      rcases hs with hs | hs
      · exact h1 s hs
      · rw [List.mem_singleton] at hs
        subst hs
        exact hchr
    · rw [hsegs]
      apply chronoChainB_append _ _ h2
      intro s hs
      unfold contigB
      have h3 : s.to_station = seg.from_station := by
        rw [hcompat s e hs rfl, hfrom]
      rw [h3, hlast s hs, hd]
      simp [hcd]
    · intro s hs
      rw [hsegs, List.getLast?_concat, Option.some_inj] at hs
      subst hs
      rw [ha, hct]
    · intro s e2 hs he2
      rw [hsegs, List.getLast?_concat, Option.some_inj] at hs
      subst hs
      rw [hto]
      cases rest with
      | nil => cases he2
      | cons e3 r2 =>
        rw [List.head?_cons, Option.some_inj] at he2
        subst he2
        exact (List.chain'_cons.mp hchain).1

/-- C3 (amended): for every input path of known edge types whose walk edges
have positive distance and whose train edges have a positive (or absent)
nominal time, with a positive walking speed and endpoint-contiguous input
edges, the enriched route satisfies strict per-segment chronology and
adjacent-pair contiguity.  (As stated for arbitrary paths the claim fails:
see the zero-length-walk counterexample.) -/
theorem enrich_chronology :
    ∀ (path : List Edge) (departure_time : ℚ) (client : Option MbtaClient) (v : ℚ)
      (request_time : Option ℚ),
      0 < v →
      (∀ e ∈ path,
        (e.type_.getD "train" = "walk" ∧ 0 < e.distance_meters.getD 0)
        ∨ (e.type_.getD "train" = "train" ∧ 0 < e.time_seconds.getD 120)) →
      List.Chain' (fun e1 e2 => e1.to_ = e2.from_) path →
      StrictChronology (enrich_with_realtime path departure_time client v request_time)
      ∧ ChronoContiguous (enrich_with_realtime path departure_time client v request_time) := by
  intro path dep client v req hv hvalid hchain
  have h := enrich_fold_chrono client v hv path { current_time := dep } hvalid hchain
    (by intro s hs; cases hs)
    rfl
    (by intro s hs; cases hs)
    (by intro s e2 hs he2; cases hs)
  exact ⟨h.1, h.2⟩

/-- Witness for C3 (amended): a single positive-length walk edge. -/
theorem enrich_chronology_witness :
    StrictChronology (enrich_with_realtime
      [{ from_ := "A", to_ := "B", type_ := some "walk",
         time_seconds := some 80, distance_meters := some 100 }] 0 none 5 none)
    ∧ ChronoContiguous (enrich_with_realtime
      [{ from_ := "A", to_ := "B", type_ := some "walk",
         time_seconds := some 80, distance_meters := some 100 }] 0 none 5 none) :=
  enrich_chronology
    [{ from_ := "A", to_ := "B", type_ := some "walk",
       time_seconds := some 80, distance_meters := some 100 }] 0 none 5 none
    (by norm_num)
    (by
      intro e he
      simp only [List.mem_singleton] at he
      subst he
      left
      exact ⟨rfl, by norm_num⟩)
    (by simp)

/-- C3 counterexample: a walk edge of zero distance produces a segment with
equal departure and arrival, violating strict chronology as claimed for
every enriched route. -/
theorem zero_length_walk_breaks_strict_chronology :
    ¬ StrictChronology (enrich_with_realtime [zeroDistanceWalkEdge] 0 none 5 none) := by
  intro h
  have h2 := h
  simp [StrictChronology, enrich_with_realtime, enrichStep, zeroDistanceWalkEdge,
    segChronoB] at h2

/-- Witness for C9: a loop started with zero remaining budget and a
nonempty queue stops capped and returns no route. -/
theorem exploration_cap_witness :
    (searchLoop dominanceGraph noopClient "D" true 3 0 [dominanceItem] [] 5).route
      = none :=
  (exploration_cap.1 dominanceGraph noopClient "D" true 3 0 [dominanceItem] [] 5).2 rfl
